import Mathlib

/-!
Shallow embedding of the core of the Speed-Demon repository
(src/src/core/optimizer.py, game_detector.py, monitor.py, scheduler.py).

Python dicts are embedded as association lists that preserve insertion
order (as CPython dicts do); Python sets as duplicate-free lists where only
membership matters; floating point percentages as rationals; `datetime.now()`
as an explicit natural-number clock passed in; and the operating system
(process table, outcome of every external tuning call) as an explicit
environment value passed to each operation.  Exceptions raised by `psutil`
are embedded as `Option`-valued lookups / boolean success flags, matching
the `try/except` structure of the source.
-/

namespace SpeedDemon

/-! ## Association-list helpers (CPython dict semantics) -/

/-- Lookup in an insertion-ordered association list (`d[k]` / `k in d`). -/
def alist_lookup {κ α : Type} [DecidableEq κ] : List (κ × α) → κ → Option α
  | [], _ => none
  | (k, v) :: rest, key => if k = key then some v else alist_lookup rest key

/-- `d[k] = v`: overwrite in place if the key exists, else append (CPython
dicts keep the original position of an overwritten key). -/
def alist_set {κ α : Type} [DecidableEq κ] : List (κ × α) → κ → α → List (κ × α)
  | [], key, v => [(key, v)]
  | (k, w) :: rest, key, v =>
      if k = key then (k, v) :: rest else (k, w) :: alist_set rest key v

/-- `del d[k]`: remove the entry for a key, if present. -/
def alist_del {κ α : Type} [DecidableEq κ] : List (κ × α) → κ → List (κ × α)
  | [], _ => []
  | (k, w) :: rest, key => if k = key then rest else (k, w) :: alist_del rest key

/-- Does the first character list start the second one? -/
def listStarts : List Char → List Char → Bool
  | [], _ => true
  | _ :: _, [] => false
  | a :: as, b :: bs => a == b && listStarts as bs

/-- Does the first character list occur contiguously inside the second? -/
def listInside : List Char → List Char → Bool
  | ns, [] => ns.isEmpty
  | ns, h :: hs => listStarts ns (h :: hs) || listInside ns hs

/-- Python substring test `needle in hay` for strings. -/
def strContains (hay needle : String) : Bool :=
  listInside needle.toList hay.toList

/-- Python `str.lower()` (the process names involved are ASCII). -/
def stringLower (s : String) : String :=
  String.mk (s.data.map Char.toLower)

/-! ## Stable descending sort

CPython `list.sort(key=..., reverse=True)` is a stable sort putting larger
keys first.  Insertion sort below is stable in the same sense: an element
is placed before every later element whose key is not strictly larger. -/

/-- Insert into a descending-sorted list, before later elements of equal key. -/
def insertDescBy {α β : Type} [LinearOrder β] (key : α → β) (x : α) :
    List α → List α
  | [] => [x]
  | y :: l => if key x < key y then y :: insertDescBy key x l else x :: y :: l

/-- Stable sort, larger keys first (CPython `sort(key=key, reverse=True)`). -/
def sortDescBy {α β : Type} [LinearOrder β] (key : α → β) : List α → List α
  | [] => []
  | x :: l => insertDescBy key x (sortDescBy key l)

/-! ## Process world -/

/-- What `psutil` reports about one live process: everything the core reads
(`name()`, `nice()`, `cpu_percent()`, `memory_info().rss` in MB,
`num_threads()`). -/
structure ProcInfo where
  name : String
  nice : Int
  cpu_percent : ℚ
  memory_mb : ℚ
  num_threads : Nat
deriving DecidableEq

/-- The operating-system environment one optimizer call runs against: the
process table (`psutil.Process(pid)` raising `NoSuchProcess` is a `none`
lookup) plus the outcome of each kind of external tuning call
(`false` = the underlying OS call raised and the `except` branch ran). -/
structure OSEnv where
  procs : List (Nat × ProcInfo)
  platform : String
  priority_call_ok : Bool
  affinity_call_ok : Bool
  gpu_call_ok : Bool
  memory_call_ok : Bool
  io_call_ok : Bool
  reset_ok : Bool
deriving DecidableEq

/-- `psutil.Process(pid)`: `none` embeds the `NoSuchProcess` exception. -/
def OSEnv.find (env : OSEnv) (pid : Nat) : Option ProcInfo :=
  alist_lookup env.procs pid

/-! ## Optimizer (src/src/core/optimizer.py) -/

/-- An optimization profile (`optimizer.py` `_load_profiles` /
`_get_default_profile` dictionaries). -/
structure Profile where
  name : String
  priority : String
  cpu_affinity : String
  gpu_acceleration : Bool
  memory_optimization : Bool
  disk_priority : String
  disable_fullscreen_optimization : Bool := false
deriving DecidableEq

/-- The built-in profile table of `_load_profiles`, in declaration order
(no `config/optimization_profiles.json` present). -/
def default_profiles : List (String × Profile) :=
  [("chrome",
    { name := "Google Chrome", priority := "high", cpu_affinity := "all",
      gpu_acceleration := true, memory_optimization := true,
      disk_priority := "high" }),
   ("firefox",
    { name := "Mozilla Firefox", priority := "high", cpu_affinity := "all",
      gpu_acceleration := true, memory_optimization := true,
      disk_priority := "high" }),
   ("photoshop",
    { name := "Adobe Photoshop", priority := "realtime", cpu_affinity := "all",
      gpu_acceleration := true, memory_optimization := false,
      disk_priority := "high" }),
   ("game",
    { name := "Generic Game", priority := "realtime",
      cpu_affinity := "performance_cores", gpu_acceleration := true,
      memory_optimization := false, disk_priority := "high",
      disable_fullscreen_optimization := true })]

/-- `_get_default_profile`. -/
def get_default_profile : Profile :=
  { name := "Default", priority := "high", cpu_affinity := "all",
    gpu_acceleration := true, memory_optimization := true,
    disk_priority := "normal" }

/-- Keys of the priority map in `_set_process_priority` (the same six names
on Windows and Unix). -/
def priority_names : List String :=
  ["idle", "below_normal", "normal", "above_normal", "high", "realtime"]

/-- `_set_process_priority`: returns `true` iff the name is in the priority
map and the `process.nice(...)` call did not raise. -/
def set_process_priority (env : OSEnv) (priority : String) : Bool :=
  priority_names.contains priority && env.priority_call_ok

/-- `_set_cpu_affinity`: `true` iff the affinity type is recognized and the
`process.cpu_affinity(...)` call did not raise. -/
def set_cpu_affinity (env : OSEnv) (affinity_type : String) : Bool :=
  (affinity_type == "all" || affinity_type == "performance_cores" ||
    affinity_type == "efficiency_cores") && env.affinity_call_ok

/-- `_enable_gpu_acceleration`: only ever returns `true` on Windows. -/
def enable_gpu_acceleration (env : OSEnv) : Bool :=
  env.platform == "Windows" && env.gpu_call_ok

/-- `_optimize_memory`: Windows working-set trim or Linux cache drop;
`false` on other platforms or when the calls raise. -/
def optimize_memory (env : OSEnv) : Bool :=
  (env.platform == "Windows" || env.platform == "Linux") && env.memory_call_ok

/-- Recognized I/O priority names per platform in `_set_io_priority`. -/
def io_priority_names (platform : String) : List String :=
  if platform == "Windows" then ["low", "normal", "high", "critical"]
  else if platform == "Linux" then ["idle", "normal", "high"]
  else []

/-- `_set_io_priority`. -/
def set_io_priority (env : OSEnv) (priority : String) : Bool :=
  (io_priority_names env.platform).contains priority && env.io_call_ok

/-- The `optimizations_applied` list built by steps 1-5 of
`optimize_process`, in the source's order. -/
def apply_optimizations (env : OSEnv) (profile : Profile) : List String :=
  (if set_process_priority env profile.priority then ["priority"] else []) ++
  (if set_cpu_affinity env profile.cpu_affinity then ["cpu_affinity"] else []) ++
  (if profile.gpu_acceleration && env.platform == "Windows" then
    (if enable_gpu_acceleration env then ["gpu_acceleration"] else [])
   else []) ++
  (if profile.memory_optimization then
    (if optimize_memory env then ["memory_optimization"] else [])
   else []) ++
  (if profile.disk_priority ≠ "" then
    (if set_io_priority env profile.disk_priority then ["io_priority"] else [])
   else [])

/-- The metrics dictionary of `_get_process_metrics` (the `io_counters`
entry is never read back by the core and is omitted). -/
structure Metrics where
  cpu_percent : ℚ
  memory_mb : ℚ
  num_threads : Nat
deriving DecidableEq

/-- `_get_process_metrics` on a live process. -/
def get_process_metrics (p : ProcInfo) : Metrics :=
  { cpu_percent := p.cpu_percent, memory_mb := p.memory_mb,
    num_threads := p.num_threads }

/-- The per-pid entry stored in `self.optimized_processes`. -/
structure OptimizationRecord where
  name : String
  profile : Profile
  timestamp : Nat
  optimizations : List String
  metrics_before : Metrics
  boost_percentage : Int
deriving DecidableEq

/-- The mutable state of a `SystemOptimizer` instance. -/
structure OptimizerState where
  platform : String
  optimization_profiles : List (String × Profile)
  optimized_processes : List (Nat × OptimizationRecord)
deriving DecidableEq

/-- A freshly constructed `SystemOptimizer` (no custom profile file). -/
def initOptimizer (platform : String) : OptimizerState :=
  { platform := platform, optimization_profiles := default_profiles,
    optimized_processes := [] }

/-- Profile selection in `optimize_process`: an explicit, known name wins;
otherwise the first profile whose key is a substring of the lowercased
process name; otherwise the default profile. -/
def select_profile (profiles : List (String × Profile))
    (profile_name : Option String) (process_name : String) : Profile :=
  match profile_name with
  | some n =>
      match alist_lookup profiles n with
      | some p => p
      | none =>
          match profiles.find? (fun kp => strContains process_name kp.fst) with
          | some kp => kp.snd
          | none => get_default_profile
  | none =>
      match profiles.find? (fun kp => strContains process_name kp.fst) with
      | some kp => kp.snd
      | none => get_default_profile

/-- `optimize_process(pid, profile_name)`: returns the new state plus the
`(success, message)` pair.  Note the source never checks whether a record
for `pid` already exists: it recomputes everything and overwrites the
stored entry. -/
def optimize_process (st : OptimizerState) (env : OSEnv) (now : Nat)
    (pid : Nat) (profile_name : Option String) :
    OptimizerState × Bool × String :=
  match env.find pid with
  | none => (st, false, "Process no longer exists")
  | some proc =>
      let process_name := stringLower proc.name
      let profile := select_profile st.optimization_profiles profile_name process_name
      let applied := apply_optimizations env profile
      let record : OptimizationRecord :=
        { name := proc.name, profile := profile, timestamp := now,
          optimizations := applied, metrics_before := get_process_metrics proc,
          boost_percentage := 0 }
      ({ st with optimized_processes := alist_set st.optimized_processes pid record },
       true, "Applied " ++ toString applied.length ++ " optimizations")

/-- `calculate_boost(pid)`: the sum of boost factors, truncated by `int()`
(equal to the floor here, the sum being non-negative) and capped at 999;
the stored record's `boost_percentage` is overwritten.  When the process
has vanished the `except` branch returns the stored value unchanged. -/
def calculate_boost (st : OptimizerState) (env : OSEnv) (pid : Nat) :
    OptimizerState × Int :=
  match alist_lookup st.optimized_processes pid with
  | none => (st, 0)
  | some record =>
      match env.find pid with
      | none => (st, record.boost_percentage)
      | some proc =>
          let current := get_process_metrics proc
          let before := record.metrics_before
          let cpu_factors : List ℚ :=
            if before.cpu_percent > 0 then
              [max 0 ((before.cpu_percent - current.cpu_percent) /
                before.cpu_percent * 100)]
            else []
          let base_boost : ℚ := record.optimizations.length * 25
          let prio_factors : List ℚ := if proc.nice < 32 then [30] else []
          let total : ℚ := (cpu_factors ++ [base_boost] ++ prio_factors).sum
          let total_boost : Int := min total.floor 999
          let record2 := { record with boost_percentage := total_boost }
          let table2 := alist_set st.optimized_processes pid record2
          ({ st with optimized_processes := table2 }, total_boost)

/-- `remove_optimization(pid)`: if the process lookup or either reset call
raises, the bare `except` returns `false` and the record is NOT deleted;
only on a fully successful reset is the record removed and `true` returned. -/
def remove_optimization (st : OptimizerState) (env : OSEnv) (pid : Nat) :
    OptimizerState × Bool :=
  match env.find pid with
  | none => (st, false)
  | some _ =>
      if env.reset_ok then
        ({ st with optimized_processes := alist_del st.optimized_processes pid },
         true)
      else (st, false)

/-- The dictionary returned by `get_optimization_stats`. -/
structure Stats where
  total_optimized : Nat
  average_boost : ℚ
  total_boost : Int
  top_processes : List (Nat × String × Int)
deriving DecidableEq

/-- `get_optimization_stats()`: a read-only fold over the records; the
top list is the boost-descending stable sort cut to five entries. -/
def get_optimization_stats (st : OptimizerState) : Stats :=
  let total_processes := st.optimized_processes.length
  let total_boost : Int :=
    (st.optimized_processes.map (fun p => p.snd.boost_percentage)).sum
  { total_optimized := total_processes,
    average_boost :=
      if total_processes > 0 then (total_boost : ℚ) / total_processes else 0,
    total_boost := total_boost,
    top_processes :=
      (sortDescBy (fun t => t.snd.snd)
        (st.optimized_processes.map
          (fun p => (p.fst, p.snd.name, p.snd.boost_percentage)))).take 5 }

/-! ## Game detector (src/src/core/game_detector.py) -/

/-- An entry of the known-games database (`_load_game_database`):
`{'name': ..., 'type': ...}`. -/
structure GameDBEntry where
  name : String
  type : String
deriving DecidableEq

/-- The built-in game database, in declaration order (no
`config/game_database.json` present). -/
def default_games : List (String × GameDBEntry) :=
  [("csgo.exe", ⟨"Counter-Strike: Global Offensive", "fps"⟩),
   ("dota2.exe", ⟨"Dota 2", "moba"⟩),
   ("valorant.exe", ⟨"Valorant", "fps"⟩),
   ("leagueoflegends.exe", ⟨"League of Legends", "moba"⟩),
   ("overwatch.exe", ⟨"Overwatch", "fps"⟩),
   ("gta5.exe", ⟨"Grand Theft Auto V", "action"⟩),
   ("witcher3.exe", ⟨"The Witcher 3", "rpg"⟩),
   ("cyberpunk2077.exe", ⟨"Cyberpunk 2077", "rpg"⟩),
   ("minecraft.exe", ⟨"Minecraft", "sandbox"⟩),
   ("fortnite.exe", ⟨"Fortnite", "battle_royale"⟩),
   ("apex_legends.exe", ⟨"Apex Legends", "battle_royale"⟩),
   ("pubg.exe", ⟨"PUBG", "battle_royale"⟩),
   ("rocketleague.exe", ⟨"Rocket League", "sports"⟩),
   ("fifa23.exe", ⟨"FIFA 23", "sports"⟩),
   ("cod.exe", ⟨"Call of Duty", "fps"⟩),
   ("battlefield.exe", ⟨"Battlefield", "fps"⟩),
   ("rdr2.exe", ⟨"Red Dead Redemption 2", "action"⟩),
   ("eldenring.exe", ⟨"Elden Ring", "rpg"⟩)]

/-- `self.game_indicators` (engine/API indicator tokens). -/
def game_indicators : List String :=
  ["unreal", "unity", "cryengine", "frostbite", "gameoverlayui",
   "d3d", "opengl", "vulkan", "directx"]

/-- The system settings snapshot built by `_store_original_settings`.
`_get_gpu_settings` and `_get_network_settings` are placeholders returning
empty dictionaries, so only the power plan carries information. -/
structure SavedSettings where
  power_plan : String
deriving DecidableEq

/-- The mutable state of a `GameDetector` instance.  `original_settings`
is `none` for the initial empty dictionary. -/
structure DetectorState where
  known_games : List (String × GameDBEntry)
  gaming_processes : List Nat
  game_mode_active : Bool
  original_settings : Option SavedSettings
deriving DecidableEq

/-- A freshly constructed `GameDetector`. -/
def initDetector : DetectorState :=
  { known_games := default_games, gaming_processes := [],
    game_mode_active := false, original_settings := none }

/-- `set.add(pid)` on the duplicate-free pid list. -/
def addPid (s : List Nat) (pid : Nat) : List Nat :=
  if s.contains pid then s else s ++ [pid]

/-- The entries detect_games produces.  A known-games match copies the
database entry and adds `pid` / `process_name` — it carries NO
`detected_by` key; the indicator and GPU branches set `detected_by`. -/
structure DetectedGame where
  name : String
  type : String
  pid : Nat
  process_name : String
  detected_by : Option String
deriving DecidableEq

/-- The two process-dictionary keys `detect_games` reads from each
monitor snapshot. -/
structure ProcSnap where
  pid : Nat
  name : String
deriving DecidableEq

/-- `_check_gpu_usage(pid)`: ignores its pid entirely and reports whether
the first GPU's system-wide load exceeds 0.3 (`false` when GPUtil is
unavailable or raises). -/
def check_gpu_usage (gpu_busy : Bool) (_pid : Nat) : Bool := gpu_busy

/-- The body of `detect_games`' loop for a single process entry: the
classification cascade (known table, then indicator substring, then GPU
heuristic), first match wins. -/
def classify_one (known : List (String × GameDBEntry)) (gpu_busy : Bool)
    (p : ProcSnap) : Option DetectedGame :=
  let process_name := stringLower p.name
  match alist_lookup known process_name with
  | some entry =>
      some { name := entry.name, type := entry.type, pid := p.pid,
             process_name := process_name, detected_by := none }
  | none =>
      if game_indicators.any (fun ind => strContains process_name ind) then
        some { name := p.name, type := "unknown", pid := p.pid,
               process_name := process_name, detected_by := some "indicator" }
      else if check_gpu_usage gpu_busy p.pid then
        some { name := p.name, type := "unknown", pid := p.pid,
               process_name := process_name, detected_by := some "gpu_usage" }
      else none

/-- `detect_games(processes)`: returns the mutated detector state (each
detected pid is added to `self.gaming_processes`) and the detected list. -/
def detect_games (st : DetectorState) (gpu_busy : Bool) :
    List ProcSnap → DetectorState × List DetectedGame
  | [] => (st, [])
  | p :: ps =>
      match classify_one st.known_games gpu_busy p with
      | some g =>
          let st1 := { st with gaming_processes := addPid st.gaming_processes p.pid }
          let r := detect_games st1 gpu_busy ps
          (r.fst, g :: r.snd)
      | none => detect_games st gpu_busy ps

/-- The system-wide settings the detector can read (`_get_power_plan`). -/
structure SystemEnv where
  power_plan : String
deriving DecidableEq

/-- `_store_original_settings`. -/
def store_original_settings (st : DetectorState) (env : SystemEnv) :
    DetectorState :=
  { st with original_settings := some { power_plan := env.power_plan } }

/-- `enable_game_mode(optimizer, detected_games)`: a no-op when already
active; otherwise snapshots the system settings, applies the "game"
profile to each detected pid through the optimizer, performs the external
genre-specific and system-wide tuning (OS side effects only), and sets
`game_mode_active`.  Note it does not touch `gaming_processes`. -/
def enable_game_mode (st : DetectorState) (opt : OptimizerState)
    (oenv : OSEnv) (senv : SystemEnv) (now : Nat)
    (detected : List DetectedGame) : DetectorState × OptimizerState :=
  if st.game_mode_active then (st, opt)
  else
    let st1 := store_original_settings st senv
    let opt1 := detected.foldl
      (fun o g => (optimize_process o oenv now g.pid (some "game")).fst) opt
    ({ st1 with game_mode_active := true }, opt1)

/-- `disable_game_mode(optimizer)`: a no-op when inactive; otherwise
best-effort removes each tracked pid's optimization, restores the saved
system settings through external OS calls (`_restore_original_settings`
reads `original_settings` but never clears it), empties the tracked pid
set, and clears the active flag. -/
def disable_game_mode (st : DetectorState) (opt : OptimizerState)
    (oenv : OSEnv) : DetectorState × OptimizerState :=
  if !st.game_mode_active then (st, opt)
  else
    let opt1 := st.gaming_processes.foldl
      (fun o pid => (remove_optimization o oenv pid).fst) opt
    ({ st with gaming_processes := [], game_mode_active := false }, opt1)

/-! ## Monitor (src/src/core/monitor.py) -/

/-- One row of the OS process table as `psutil.process_iter` yields it.
`accessible = false` embeds a `NoSuchProcess` / `AccessDenied` /
`ZombieProcess` raised while reading the process, which the loop body's
`except` turns into a `continue`. -/
structure RawProc where
  pid : Nat
  name : String
  cpu_percent : ℚ
  memory_percent : ℚ
  memory_mb : ℚ
  status : String
  num_threads : Nat
  accessible : Bool
deriving DecidableEq

/-- `max_processes` in `get_processes`. -/
def max_processes : Nat := 50

/-- The collection loop of `get_processes`: walk the table in order,
break once 50 entries are collected, skip unreadable processes and
processes with `cpu_percent == 0 and memory_percent < 0.1`. -/
def collect_processes : List RawProc → Nat → List RawProc
  | [], _ => []
  | p :: ps, count =>
      if count ≥ max_processes then []
      else if !p.accessible then collect_processes ps count
      else if p.cpu_percent = 0 ∧ p.memory_percent < mkRat 1 10 then
        collect_processes ps count
      else p :: collect_processes ps (count + 1)

/-- `get_processes()`: collect, sort by CPU descending (stable), return
the first 30. -/
def get_processes (table : List RawProc) : List RawProc :=
  (sortDescBy (fun p => p.cpu_percent) (collect_processes table 0)).take 30

/-- A registered monitor callback: its identity plus whether calling it
on this cycle raises. -/
structure Subscriber where
  sid : Nat
  fails : Bool
deriving DecidableEq

/-- The mutable state of a `ProcessMonitor` instance (the fields the loop
touches). -/
structure MonitorState where
  monitoring : Bool
  callbacks : List Subscriber
  process_cache : List (Nat × RawProc)
deriving DecidableEq

/-- The callback loop of `_monitor_loop`: callbacks run in registration
order; the first one that raises propagates its exception out of the
`for`, so it and every later callback deliver nothing that cycle.
Returns the deliveries made and whether an exception escaped the loop. -/
def notify_callbacks : List Subscriber → List RawProc →
    List (Nat × List RawProc) × Bool
  | [], _ => ([], false)
  | c :: cs, procs =>
      if c.fails then ([], true)
      else
        let r := notify_callbacks cs procs
        ((c.sid, procs) :: r.fst, r.snd)

/-- One iteration of `_monitor_loop`'s `while` body: poll, update the
cache, notify callbacks; any exception is caught by the surrounding
`except`, logged, and the loop sleeps and re-checks `self.monitoring`.
Returns the new state, the deliveries made this cycle, and whether the
loop keeps running. -/
def monitor_cycle (st : MonitorState) (table : List RawProc) :
    MonitorState × List (Nat × List RawProc) × Bool :=
  let procs := get_processes table
  let st1 := { st with process_cache := procs.map (fun p => (p.pid, p)) }
  let r := notify_callbacks st.callbacks procs
  (st1, r.fst, st.monitoring)

/-! ## Scheduler (src/src/core/scheduler.py) -/

/-- One element of a schedule's action list (`_execute_action` dispatches
on its `type` key; the embedding records executions rather than modelling
each action's OS side effects). -/
structure ActionSpec where
  kind : String
deriving DecidableEq

/-- One entry of `self.schedules`.  `has_job` stands for the `job` slot
holding a live `schedule`-library job object. -/
structure ScheduleInfo where
  id : String
  name : String
  type : String
  time : Option String
  days : List String
  interval : Option Nat
  actions : List ActionSpec
  enabled : Bool
  created : Nat
  last_run : Option Nat
  next_run : Option Nat
  has_job : Bool
deriving DecidableEq

/-- The mutable state of an `OptimizationScheduler`: the schedule table
plus a log of every action execution performed by `_run_schedule` (the
observable effect of `_execute_action`). -/
structure SchedulerState where
  schedules : List (String × ScheduleInfo)
  executed : List (String × ActionSpec)
deriving DecidableEq

/-- A freshly constructed scheduler with no saved schedule file. -/
def initScheduler : SchedulerState :=
  { schedules := [], executed := [] }

/-- `_run_schedule(schedule_id)`: returns immediately when the id is not
in `self.schedules` or the schedule is disabled; otherwise executes each
action (per-action failures are caught and logged, so every action is
attempted), sets `last_run`, and refreshes `next_run` from the attached
job when one exists (`env_next` is that job's `next_run`). -/
def run_schedule (st : SchedulerState) (sid : String) (now : Nat)
    (env_next : Option Nat) : SchedulerState :=
  match alist_lookup st.schedules sid with
  | none => st
  | some info =>
      if !info.enabled then st
      else
        let log2 := st.executed ++ info.actions.map (fun a => (sid, a))
        let info2 :=
          { info with
            last_run := some now,
            next_run := if info.has_job then env_next else info.next_run }
        { schedules := alist_set st.schedules sid info2, executed := log2 }

/-- `_create_job(schedule_id, schedule_info)`: for the recurring trigger
kinds it attaches a `schedule`-library job whose computed `next_run` is
`libNext` (a weekly schedule with an empty day list attaches nothing);
for `startup` it calls `_run_schedule` immediately and attaches no job.
Returns the updated scheduler state and the updated schedule dictionary. -/
def create_job (st : SchedulerState) (sid : String) (info : ScheduleInfo)
    (now : Nat) (libNext : Nat) : SchedulerState × ScheduleInfo :=
  if info.type == "daily" then
    (st, { info with has_job := true, next_run := some libNext })
  else if info.type == "weekly" then
    (st, if info.days.isEmpty then info
         else { info with has_job := true, next_run := some libNext })
  else if info.type == "interval" then
    (st, { info with has_job := true, next_run := some libNext })
  else if info.type == "startup" then
    (run_schedule st sid now (some libNext), info)
  else if info.type == "idle" then
    (st, { info with has_job := true, next_run := some libNext })
  else (st, info)

/-- `add_schedule(...)`: builds the schedule dictionary, calls
`_create_job` when enabled, and only THEN inserts the dictionary into
`self.schedules` (`sid` is the fresh uuid). -/
def add_schedule (st : SchedulerState) (sid : String) (name : String)
    (schedule_type : String) (time_str : Option String) (days : List String)
    (interval : Option Nat) (actions : List ActionSpec) (enabled : Bool)
    (now : Nat) (libNext : Nat) : SchedulerState :=
  let info : ScheduleInfo :=
    { id := sid, name := name, type := schedule_type, time := time_str,
      days := days, interval := interval, actions := actions,
      enabled := enabled, created := now, last_run := none,
      next_run := none, has_job := false }
  let r := if enabled then create_job st sid info now libNext else (st, info)
  { r.fst with schedules := alist_set r.fst.schedules sid r.snd }

/-! ## Spec-side comparison definitions

These two definitions follow the specification's words (not the source)
and exist only to be compared against the source-derived definitions
above. -/

/-- The boost formula as the spec states it for a Unix-like platform:
CPU-improvement term only when `cpu_before > 0`, `25` per applied action,
`+30` exactly when the effective priority is above the normal tier (a
negative nice value on Unix), clamped to `[0, 999]`. -/
def spec_compute_boost (record : OptimizationRecord) (proc : ProcInfo) : Int :=
  let cpuTerm : ℚ :=
    if record.metrics_before.cpu_percent > 0 then
      max 0 ((record.metrics_before.cpu_percent - proc.cpu_percent) /
        record.metrics_before.cpu_percent * 100)
    else 0
  let actionTerm : ℚ := record.optimizations.length * 25
  let prioTerm : ℚ := if proc.nice < 0 then 30 else 0
  min (max (cpuTerm + actionTerm + prioTerm).floor 0) 999

/-- The poll contract as the spec states it: the top 30 by CPU of the
WHOLE table after filtering out unreadable and negligible processes. -/
def spec_poll (table : List RawProc) : List RawProc :=
  (sortDescBy (fun p => p.cpu_percent)
    (table.filter (fun p =>
      p.accessible && !(p.cpu_percent == 0 && decide (p.memory_percent < mkRat 1 10))))).take 30

/-! ## Concrete fixtures used by counterexamples and witnesses -/

/-- A Linux host running one process, `valorant.exe` (pid 7), with every
external tuning call succeeding. -/
def envC1 : OSEnv :=
  { procs :=
      [(7,
        { name := "valorant.exe", nice := 0, cpu_percent := 50,
          memory_mb := 100, num_threads := 4 })],
    platform := "Linux", priority_call_ok := true, affinity_call_ok := true,
    gpu_call_ok := true, memory_call_ok := true, io_call_ok := true,
    reset_ok := true }

/-- A system whose active power plan is `balanced`. -/
def senvC2 : SystemEnv := { power_plan := "balanced" }

/-- A record whose pre-apply CPU reading was zero and with one applied
action. -/
def recC5 : OptimizationRecord :=
  { name := "app", profile := get_default_profile, timestamp := 0,
    optimizations := ["priority"], metrics_before :=
      { cpu_percent := 0, memory_mb := 10, num_threads := 1 },
    boost_percentage := 0 }

/-- The process behind `recC5`, running at normal priority (nice 0). -/
def procC5 : ProcInfo :=
  { name := "app", nice := 0, cpu_percent := 0, memory_mb := 10,
    num_threads := 1 }

/-- Optimizer state holding `recC5` for pid 5. -/
def stC5 : OptimizerState :=
  { platform := "Linux", optimization_profiles := default_profiles,
    optimized_processes := [(5, recC5)] }

/-- A Linux host running only `procC5` as pid 5. -/
def envC5 : OSEnv :=
  { procs := [(5, procC5)], platform := "Linux", priority_call_ok := true,
    affinity_call_ok := true, gpu_call_ok := true, memory_call_ok := true,
    io_call_ok := true, reset_ok := true }

/-- Optimizer state holding a record for pid 9. -/
def stC8 : OptimizerState :=
  { platform := "Linux", optimization_profiles := default_profiles,
    optimized_processes := [(9, recC5)] }

/-- A host on which the tracked process has already exited. -/
def envGone : OSEnv :=
  { procs := [], platform := "Linux", priority_call_ok := true,
    affinity_call_ok := true, gpu_call_ok := true, memory_call_ok := true,
    io_call_ok := true, reset_ok := true }

/-- Three registered monitor callbacks; the second one raises. -/
def subsC6 : List Subscriber := [⟨1, false⟩, ⟨2, true⟩, ⟨3, false⟩]

/-- A running monitor with the three callbacks of `subsC6`. -/
def stC6 : MonitorState :=
  { monitoring := true, callbacks := subsC6, process_cache := [] }

/-- A one-row process table. -/
def tblC6 : List RawProc :=
  [{ pid := 4, name := "p", cpu_percent := 5, memory_percent := 1,
     memory_mb := 1, status := "running", num_threads := 1,
     accessible := true }]

/-- A 51-row process table: rows 0-49 at 1% CPU, row 50 at 100% CPU,
all readable and all passing the negligible-share filter. -/
def tblC9 : List RawProc :=
  (List.range 51).map (fun i =>
    { pid := i, name := "p",
      cpu_percent := if i == 50 then 100 else 1,
      memory_percent := 1, memory_mb := 1, status := "running",
      num_threads := 1, accessible := true })

/-- Snapshots exercising all three detection rules: a known game, an
engine-indicator name, and an undetectable process. -/
def psC4 : List ProcSnap :=
  [⟨1, "valorant.exe"⟩, ⟨2, "unitygame.exe"⟩, ⟨3, "calc.exe"⟩]

/-! ## Helper lemmas -/

theorem alist_lookup_set_self {κ α : Type} [DecidableEq κ]
    (l : List (κ × α)) (k : κ) (v : α) :
    alist_lookup (alist_set l k v) k = some v := by
  induction l with
  | nil => simp [alist_set, alist_lookup]
  | cons kv rest ih =>
      obtain ⟨k', w⟩ := kv
      by_cases h : k' = k
      · simp [alist_set, alist_lookup, h]
      · simp [alist_set, alist_lookup, h, ih]

theorem alist_set_set_same {κ α : Type} [DecidableEq κ]
    (l : List (κ × α)) (k : κ) (v w : α) :
    alist_set (alist_set l k v) k w = alist_set l k w := by
  induction l with
  | nil => simp [alist_set]
  | cons kv rest ih =>
      obtain ⟨k', u⟩ := kv
      by_cases h : k' = k
      · simp [alist_set, h]
      · simp [alist_set, h, ih]

theorem alist_set_keys_mem {κ α : Type} [DecidableEq κ]
    (l : List (κ × α)) (k : κ) (v : α) (a : κ)
    (h : a ∈ (alist_set l k v).map Prod.fst) :
    a ∈ l.map Prod.fst ∨ a = k := by
  induction l with
  | nil => simpa [alist_set] using h
  | cons kv rest ih =>
      obtain ⟨k', u⟩ := kv
      by_cases hk : k' = k
      · rw [alist_set, if_pos hk] at h
        simpa using Or.inl (by simpa using h)
      · rw [alist_set, if_neg hk] at h
        rcases List.mem_cons.mp h with rfl | h'
        · exact Or.inl (List.mem_cons_self _ _)
        · rcases ih h' with h'' | h''
          · exact Or.inl (List.mem_cons_of_mem _ h'')
          · exact Or.inr h''

theorem alist_set_keys_nodup {κ α : Type} [DecidableEq κ]
    (l : List (κ × α)) (k : κ) (v : α)
    (h : (l.map Prod.fst).Nodup) :
    ((alist_set l k v).map Prod.fst).Nodup := by
  induction l with
  | nil => simp [alist_set]
  | cons kv rest ih =>
      obtain ⟨k', u⟩ := kv
      rw [List.map_cons, List.nodup_cons] at h
      by_cases hk : k' = k
      · rw [alist_set, if_pos hk]
        rw [List.map_cons, List.nodup_cons]
        exact h
      · rw [alist_set, if_neg hk]
        rw [List.map_cons, List.nodup_cons]
        refine ⟨?_, ih h.2⟩
        intro hmem
        rcases alist_set_keys_mem rest k v k' hmem with h' | h'
        · exact h.1 h'
        · exact hk h'

theorem perm_insertDescBy {α β : Type} [LinearOrder β] (key : α → β)
    (x : α) (l : List α) : List.Perm (insertDescBy key x l) (x :: l) := by
  induction l with
  | nil => exact List.Perm.refl _
  | cons y l ih =>
      rw [insertDescBy]
      by_cases h : key x < key y
      · rw [if_pos h]
        exact (ih.cons y).trans (List.Perm.swap x y l)
      · rw [if_neg h]

theorem perm_sortDescBy {α β : Type} [LinearOrder β] (key : α → β)
    (l : List α) : List.Perm (sortDescBy key l) l := by
  induction l with
  | nil => exact List.Perm.refl _
  | cons x l ih =>
      rw [sortDescBy]
      exact (perm_insertDescBy key x (sortDescBy key l)).trans (ih.cons x)

theorem sorted_insertDescBy {α β : Type} [LinearOrder β] (key : α → β)
    (x : α) (l : List α)
    (h : List.Sorted (fun a b => key b ≤ key a) l) :
    List.Sorted (fun a b => key b ≤ key a) (insertDescBy key x l) := by
  induction l with
  | nil => simp [insertDescBy]
  | cons y l ih =>
      rw [List.sorted_cons] at h
      obtain ⟨hy, hl⟩ := h
      rw [insertDescBy]
      by_cases hxy : key x < key y
      · rw [if_pos hxy]
        rw [List.sorted_cons]
        refine ⟨?_, ih hl⟩
        intro z hz
        rcases List.mem_cons.mp ((perm_insertDescBy key x l).mem_iff.mp hz) with rfl | hz'
        · exact le_of_lt hxy
        · exact hy z hz'
      · rw [if_neg hxy]
        rw [List.sorted_cons]
        refine ⟨?_, by rw [List.sorted_cons]; exact ⟨hy, hl⟩⟩
        intro z hz
        rcases List.mem_cons.mp hz with rfl | hz'
        · exact le_of_not_lt hxy
        · exact le_trans (hy z hz') (le_of_not_lt hxy)

theorem sorted_sortDescBy {α β : Type} [LinearOrder β] (key : α → β)
    (l : List α) :
    List.Sorted (fun a b => key b ≤ key a) (sortDescBy key l) := by
  induction l with
  | nil => simp [sortDescBy]
  | cons x l ih =>
      rw [sortDescBy]
      exact sorted_insertDescBy key x _ ih

theorem mem_collect_processes :
    ∀ (l : List RawProc) (c : Nat) (p : RawProc),
      p ∈ collect_processes l c →
      p ∈ l ∧ p.accessible = true ∧
        ¬(p.cpu_percent = 0 ∧ p.memory_percent < mkRat 1 10)
  | [], _, p => by simp [collect_processes]
  | q :: l, c, p => by
      intro hp
      rw [collect_processes] at hp
      split_ifs at hp with h1 h2 h3
      · simp at hp
      · have r := mem_collect_processes l c p hp
        exact ⟨List.mem_cons_of_mem _ r.1, r.2⟩
      · have r := mem_collect_processes l c p hp
        exact ⟨List.mem_cons_of_mem _ r.1, r.2⟩
      · rcases List.mem_cons.mp hp with rfl | hp'
        · refine ⟨List.mem_cons_self _ _, ?_, h3⟩
          simpa using h2
        · have r := mem_collect_processes l (c + 1) p hp'
          exact ⟨List.mem_cons_of_mem _ r.1, r.2⟩

theorem notify_callbacks_fst (procs : List RawProc) :
    ∀ cs : List Subscriber,
      (notify_callbacks cs procs).fst =
        (cs.takeWhile (fun c => !c.fails)).map (fun c => (c.sid, procs))
  | [] => by simp [notify_callbacks]
  | c :: cs => by
      rw [notify_callbacks, List.takeWhile_cons]
      by_cases h : c.fails
      · simp [h]
      · simp [h, notify_callbacks_fst procs cs]

theorem classify_one_pid {known : List (String × GameDBEntry)} {gpu : Bool}
    {p : ProcSnap} {g : DetectedGame}
    (h : classify_one known gpu p = some g) : g.pid = p.pid := by
  simp only [classify_one] at h
  cases hk : alist_lookup known (stringLower p.name) with
  | some e =>
      rw [hk] at h
      simp only [Option.some.injEq] at h
      subst h
      rfl
  | none =>
      rw [hk] at h
      split_ifs at h with h1 h2
      · simp only [Option.some.injEq] at h
        subst h
        rfl
      · simp only [Option.some.injEq] at h
        subst h
        rfl

theorem classify_one_cases {known : List (String × GameDBEntry)} {gpu : Bool}
    {p : ProcSnap} {g : DetectedGame}
    (h : classify_one known gpu p = some g) :
    (alist_lookup known g.process_name = some ⟨g.name, g.type⟩ ∧
      g.detected_by = none) ∨
    (alist_lookup known g.process_name = none ∧
      game_indicators.any (fun i => strContains g.process_name i) = true ∧
      g.detected_by = some "indicator") ∨
    (alist_lookup known g.process_name = none ∧
      game_indicators.any (fun i => strContains g.process_name i) = false ∧
      gpu = true ∧ g.detected_by = some "gpu_usage") := by
  simp only [classify_one] at h
  cases hk : alist_lookup known (stringLower p.name) with
  | some e =>
      rw [hk] at h
      simp only [Option.some.injEq] at h
      subst h
      exact Or.inl ⟨hk, rfl⟩
  | none =>
      rw [hk] at h
      split_ifs at h with h1 h2
      · simp only [Option.some.injEq] at h
        subst h
        exact Or.inr (Or.inl ⟨hk, h1, rfl⟩)
      · simp only [Option.some.injEq] at h
        subst h
        refine Or.inr (Or.inr ⟨hk, by simpa using h1, ?_, rfl⟩)
        simpa [check_gpu_usage] using h2

theorem detect_games_spec (gpu : Bool) :
    ∀ (ps : List ProcSnap) (st : DetectorState),
      (detect_games st gpu ps).fst.known_games = st.known_games ∧
      (detect_games st gpu ps).fst.game_mode_active = st.game_mode_active ∧
      (detect_games st gpu ps).fst.original_settings = st.original_settings ∧
      (detect_games st gpu ps).fst.gaming_processes =
        ((detect_games st gpu ps).snd.map (fun g => g.pid)).foldl addPid
          st.gaming_processes ∧
      (detect_games st gpu ps).snd =
        ps.filterMap (classify_one st.known_games gpu)
  | [], st => by simp [detect_games]
  | p :: ps, st => by
      rw [detect_games]
      cases hc : classify_one st.known_games gpu p with
      | none =>
          have ih := detect_games_spec gpu ps st
          simpa [List.filterMap_cons, hc] using ih
      | some g =>
          have hpid := classify_one_pid hc
          have ih := detect_games_spec gpu ps
            { st with gaming_processes := addPid st.gaming_processes p.pid }
          simp only [List.filterMap_cons, hc, List.map_cons, List.foldl_cons]
          refine ⟨ih.1, ih.2.1, ih.2.2.1, ?_, ?_⟩
          · rw [hpid]
            exact ih.2.2.2.1
          · exact congrArg (List.cons g) ih.2.2.2.2

theorem detect_pids_sublist (known : List (String × GameDBEntry)) (gpu : Bool) :
    ∀ ps : List ProcSnap,
      ((ps.filterMap (classify_one known gpu)).map (fun g => g.pid)).Sublist
        (ps.map ProcSnap.pid)
  | [] => by simp
  | p :: ps => by
      rw [List.filterMap_cons]
      cases hc : classify_one known gpu p with
      | none =>
          simp only [hc, List.map_cons]
          exact (detect_pids_sublist known gpu ps).cons _
      | some g =>
          simp only [hc, List.map_cons]
          rw [classify_one_pid hc]
          exact (detect_pids_sublist known gpu ps).cons₂ _

/-! ## Claim theorems -/

/-- C1 (amended): `optimize_process` keeps at most one record per pid
(records are keyed by pid, so the key list stays duplicate-free), and a
second apply under an unchanged environment and clock reproduces the exact
same state and result; but a second apply is NOT a no-op returning the old
record: it re-applies the actions and overwrites the stored record. -/
theorem C1_apply_overwrites_one_record_per_pid (st : OptimizerState)
    (env : OSEnv) (now : Nat) (pid : Nat) (pn : Option String)
    (h : (st.optimized_processes.map Prod.fst).Nodup) :
    ((optimize_process st env now pid pn).fst.optimized_processes.map
      Prod.fst).Nodup ∧
    optimize_process (optimize_process st env now pid pn).fst env now pid pn =
      optimize_process st env now pid pn := by
  cases he : env.find pid with
  | none =>
      constructor
      · simpa [optimize_process, he] using h
      · simp [optimize_process, he]
  | some proc =>
      constructor
      · simp only [optimize_process, he]
        exact alist_set_keys_nodup _ _ _ h
      · simp [optimize_process, he, alist_set_set_same]

/-- C1 witness: the amended theorem applied to a fresh Linux optimizer and
the one-process host `envC1`. -/
theorem C1_witness :
    (((initOptimizer "Linux").optimized_processes.map Prod.fst).Nodup) ∧
    (((optimize_process (initOptimizer "Linux") envC1 100 7
        none).fst.optimized_processes.map Prod.fst).Nodup ∧
      optimize_process
        (optimize_process (initOptimizer "Linux") envC1 100 7 none).fst
        envC1 100 7 none =
      optimize_process (initOptimizer "Linux") envC1 100 7 none) :=
  ⟨by decide,
   C1_apply_overwrites_one_record_per_pid (initOptimizer "Linux") envC1 100 7
     none (by decide)⟩

/-- C1 counterexample: applying a second time at a later clock is not a
no-op — the stored record changes (its timestamp is refreshed), refuting
the claim that a second `optimize_process` leaves the record unchanged. -/
theorem C1_counterexample :
    alist_lookup
      ((optimize_process
        (optimize_process (initOptimizer "Linux") envC1 100 7 none).fst
        envC1 200 7 none).fst).optimized_processes 7 ≠
    alist_lookup
      ((optimize_process (initOptimizer "Linux") envC1 100 7
        none).fst).optimized_processes 7 := by decide

/-- C2 (amended): on an active session `disable_game_mode` empties the
tracked gaming-process set and clears the active flag (restore failures
are swallowed inside the restore helpers, so the clears always run), but
it does NOT clear `original_settings` — the saved system settings survive
the disable, so `not active` does not imply the settings are cleared. -/
theorem C2_disable_clears_flag_not_settings (st : DetectorState)
    (opt : OptimizerState) (oenv : OSEnv)
    (h : st.game_mode_active = true) :
    (disable_game_mode st opt oenv).fst.gaming_processes = [] ∧
    (disable_game_mode st opt oenv).fst.game_mode_active = false ∧
    (disable_game_mode st opt oenv).fst.original_settings =
      st.original_settings := by
  simp [disable_game_mode, h]

/-- C2 witness: the amended theorem applied to the session obtained by
enabling game mode on a fresh detector. -/
theorem C2_witness :
    ((enable_game_mode initDetector (initOptimizer "Linux") envC1 senvC2 0
        []).fst.game_mode_active = true) ∧
    ((disable_game_mode
        (enable_game_mode initDetector (initOptimizer "Linux") envC1 senvC2 0
          []).fst (initOptimizer "Linux") envC1).fst.gaming_processes = [] ∧
      (disable_game_mode
        (enable_game_mode initDetector (initOptimizer "Linux") envC1 senvC2 0
          []).fst (initOptimizer "Linux") envC1).fst.game_mode_active = false ∧
      (disable_game_mode
        (enable_game_mode initDetector (initOptimizer "Linux") envC1 senvC2 0
          []).fst (initOptimizer "Linux") envC1).fst.original_settings =
        (enable_game_mode initDetector (initOptimizer "Linux") envC1 senvC2 0
          []).fst.original_settings) :=
  ⟨by decide,
   C2_disable_clears_flag_not_settings
     (enable_game_mode initDetector (initOptimizer "Linux") envC1 senvC2 0
       []).fst (initOptimizer "Linux") envC1 (by decide)⟩

/-- C2 counterexample: after enable followed by disable the session is
inactive yet `original_settings` is still populated, refuting the claimed
invariant that `disable` clears the saved settings. -/
theorem C2_counterexample :
    (disable_game_mode
      (enable_game_mode initDetector (initOptimizer "Linux") envC1 senvC2 0
        []).fst (initOptimizer "Linux") envC1).fst.game_mode_active = false ∧
    (disable_game_mode
      (enable_game_mode initDetector (initOptimizer "Linux") envC1 senvC2 0
        []).fst (initOptimizer "Linux") envC1).fst.original_settings ≠
      none := by decide

/-- C3 (amended): `detect_games` leaves the known-games table, the
game-mode flag and the saved settings untouched, but it is NOT
side-effect free on classifier state: every detected pid is added to the
tracked gaming-process set. -/
theorem C3_detect_updates_tracked_pids (st : DetectorState) (gpu : Bool)
    (ps : List ProcSnap) :
    (detect_games st gpu ps).fst.known_games = st.known_games ∧
    (detect_games st gpu ps).fst.game_mode_active = st.game_mode_active ∧
    (detect_games st gpu ps).fst.original_settings = st.original_settings ∧
    (detect_games st gpu ps).fst.gaming_processes =
      ((detect_games st gpu ps).snd.map (fun g => g.pid)).foldl addPid
        st.gaming_processes :=
  ⟨(detect_games_spec gpu ps st).1, (detect_games_spec gpu ps st).2.1,
   (detect_games_spec gpu ps st).2.2.1, (detect_games_spec gpu ps st).2.2.2.1⟩

/-- C3 counterexample: detecting a known game mutates the tracked
gaming-process set, refuting the claimed side-effect freedom of
`detect_games`. -/
theorem C3_counterexample :
    (detect_games initDetector false
      [⟨1, "valorant.exe"⟩]).fst.gaming_processes ≠
    initDetector.gaming_processes := by decide

/-- C4 (amended): a single `detect_games` pass classifies each snapshot by
the first matching rule in the order known table, indicator substring,
GPU heuristic; each snapshot yields at most one detection, so distinct
input pids are never reported twice; indicator and GPU matches carry
`detected_by = "indicator"` / `"gpu_usage"`, but a known-games match
carries NO `detected_by` field at all. -/
theorem C4_cascade_first_match (st : DetectorState) (gpu : Bool)
    (ps : List ProcSnap) (h : (ps.map ProcSnap.pid).Nodup) :
    (detect_games st gpu ps).snd =
      ps.filterMap (classify_one st.known_games gpu) ∧
    ((detect_games st gpu ps).snd.map (fun g => g.pid)).Nodup ∧
    (∀ g ∈ (detect_games st gpu ps).snd,
      (alist_lookup st.known_games g.process_name = some ⟨g.name, g.type⟩ ∧
        g.detected_by = none) ∨
      (alist_lookup st.known_games g.process_name = none ∧
        game_indicators.any (fun i => strContains g.process_name i) = true ∧
        g.detected_by = some "indicator") ∨
      (alist_lookup st.known_games g.process_name = none ∧
        game_indicators.any (fun i => strContains g.process_name i) = false ∧
        gpu = true ∧ g.detected_by = some "gpu_usage")) := by
  have hs := (detect_games_spec gpu ps st).2.2.2.2
  refine ⟨hs, ?_, ?_⟩
  · rw [hs]
    exact List.Nodup.sublist (detect_pids_sublist st.known_games gpu ps) h
  · intro g hg
    rw [hs] at hg
    obtain ⟨p, _, hcp⟩ := List.mem_filterMap.mp hg
    exact classify_one_cases hcp

/-- C4 witness: the amended theorem applied to a snapshot list exercising
all three rules. -/
theorem C4_witness :
    ((psC4.map ProcSnap.pid).Nodup) ∧
    ((detect_games initDetector true psC4).snd =
      psC4.filterMap (classify_one initDetector.known_games true) ∧
    ((detect_games initDetector true psC4).snd.map (fun g => g.pid)).Nodup ∧
    (∀ g ∈ (detect_games initDetector true psC4).snd,
      (alist_lookup initDetector.known_games g.process_name =
        some ⟨g.name, g.type⟩ ∧ g.detected_by = none) ∨
      (alist_lookup initDetector.known_games g.process_name = none ∧
        game_indicators.any (fun i => strContains g.process_name i) = true ∧
        g.detected_by = some "indicator") ∨
      (alist_lookup initDetector.known_games g.process_name = none ∧
        game_indicators.any (fun i => strContains g.process_name i) = false ∧
        true = true ∧ g.detected_by = some "gpu_usage"))) :=
  ⟨by decide, C4_cascade_first_match initDetector true psC4 (by decide)⟩

/-- C4 counterexample: a known-games match produces an entry with no
`detected_by` key (the source copies the database entry, which has only
`name` and `type`), refuting the claim that such entries carry
`detected_by = "known"`. -/
theorem C4_counterexample :
    ((detect_games initDetector false [⟨1, "valorant.exe"⟩]).snd.map
      (fun g => g.detected_by)) = [none] ∧
    ((detect_games initDetector false [⟨1, "valorant.exe"⟩]).snd.map
      (fun g => g.detected_by)) ≠ [some "known"] := by decide

/-- C5 (amended): with a stored record and a live process,
`calculate_boost` returns the floor of (CPU-improvement term when
`cpu_before > 0`) + 25 per applied action + (30 when the psutil nice
value is BELOW 32 — on Unix this includes normal and lower priorities,
not only priorities above the normal tier), capped at 999; the result is
always within [0, 999] and is written back into the record. -/
theorem C5_boost_formula (st : OptimizerState) (env : OSEnv) (pid : Nat)
    (record : OptimizationRecord) (proc : ProcInfo)
    (h1 : alist_lookup st.optimized_processes pid = some record)
    (h2 : env.find pid = some proc) :
    ∃ total : Int,
      calculate_boost st env pid =
        ({ st with optimized_processes := alist_set st.optimized_processes pid ({ record with boost_percentage := total }) }, total) ∧
      total =
        min (Rat.floor
          ((if record.metrics_before.cpu_percent > 0 then
              max 0 ((record.metrics_before.cpu_percent - proc.cpu_percent) /
                record.metrics_before.cpu_percent * 100)
            else 0) +
           (record.optimizations.length : ℚ) * 25 +
           (if proc.nice < 32 then (30 : ℚ) else 0))) 999 ∧
      0 ≤ total ∧ total ≤ 999 := by
  have hsum :
      ((if record.metrics_before.cpu_percent > 0 then
          [max 0 ((record.metrics_before.cpu_percent - proc.cpu_percent) /
            record.metrics_before.cpu_percent * 100)]
        else []) ++
        [((record.optimizations.length : ℚ) * 25)] ++
        (if proc.nice < 32 then [(30 : ℚ)] else [])).sum =
      (if record.metrics_before.cpu_percent > 0 then
          max 0 ((record.metrics_before.cpu_percent - proc.cpu_percent) /
            record.metrics_before.cpu_percent * 100)
        else 0) +
        (record.optimizations.length : ℚ) * 25 +
        (if proc.nice < 32 then (30 : ℚ) else 0) := by
    by_cases hc : record.metrics_before.cpu_percent > 0 <;>
      by_cases hn : proc.nice < 32 <;>
        simp [hc, hn, add_assoc, add_comm, add_left_comm]
  have hTnn : (0 : ℚ) ≤
      (if record.metrics_before.cpu_percent > 0 then
          max 0 ((record.metrics_before.cpu_percent - proc.cpu_percent) /
            record.metrics_before.cpu_percent * 100)
        else 0) +
        (record.optimizations.length : ℚ) * 25 +
        (if proc.nice < 32 then (30 : ℚ) else 0) := by
    have a1 : (0 : ℚ) ≤
        (if record.metrics_before.cpu_percent > 0 then
          max 0 ((record.metrics_before.cpu_percent - proc.cpu_percent) /
            record.metrics_before.cpu_percent * 100)
        else 0) := by
      split
      · exact le_max_left _ _
      · exact le_refl _
    have a2 : (0 : ℚ) ≤ (record.optimizations.length : ℚ) * 25 := by positivity
    have a3 : (0 : ℚ) ≤ (if proc.nice < 32 then (30 : ℚ) else 0) := by
      split <;> norm_num
    linarith
  refine ⟨_, ?_, rfl, ?_, min_le_right _ _⟩
  · simp only [calculate_boost, h1, h2, get_process_metrics, hsum]
  · refine le_min ?_ (by norm_num)
    refine Rat.le_floor.mpr ?_
    simpa using hTnn

/-- C5 witness: the amended theorem applied to the record `recC5` and
process `procC5` on host `envC5`. -/
theorem C5_witness :
    (alist_lookup stC5.optimized_processes 5 = some recC5 ∧
      envC5.find 5 = some procC5) ∧
    (∃ total : Int,
      calculate_boost stC5 envC5 5 =
        ({ stC5 with optimized_processes := alist_set stC5.optimized_processes 5 ({ recC5 with boost_percentage := total }) }, total) ∧
      total =
        min (Rat.floor
          ((if recC5.metrics_before.cpu_percent > 0 then
              max 0 ((recC5.metrics_before.cpu_percent - procC5.cpu_percent) /
                recC5.metrics_before.cpu_percent * 100)
            else 0) +
           (recC5.optimizations.length : ℚ) * 25 +
           (if procC5.nice < 32 then (30 : ℚ) else 0))) 999 ∧
      0 ≤ total ∧ total ≤ 999) :=
  ⟨⟨by decide, by decide⟩,
   C5_boost_formula stC5 envC5 5 recC5 procC5 (by decide) (by decide)⟩

/-- C5 counterexample: a Unix process at normal priority (nice 0) still
receives the +30 priority term (`nice() < 32`), so the boost is 55 where
the spec's formula — +30 only above the normal tier — yields 25, refuting
the claimed priority condition. -/
theorem C5_counterexample :
    (calculate_boost stC5 envC5 5).snd = 55 ∧
    spec_compute_boost recC5 procC5 = 25 ∧
    (calculate_boost stC5 envC5 5).snd ≠ spec_compute_boost recC5 procC5 := by
  have hA : (calculate_boost stC5 envC5 5).snd = 55 := by
    simp only [calculate_boost, stC5, envC5, recC5, procC5, OSEnv.find,
      alist_lookup, get_process_metrics]
    norm_num [Rat.floor_def']
  have hB : spec_compute_boost recC5 procC5 = 25 := by
    simp only [spec_compute_boost, recC5, procC5]
    norm_num [Rat.floor_def']
  refine ⟨hA, hB, ?_⟩
  rw [hA, hB]
  decide

/-- C6 (amended): in one monitor cycle the callbacks run in registration
order and each receives the same snapshot list, but only up to the first
callback that raises: that callback's exception aborts the remaining
notifications for the cycle (it is caught by the loop's handler, so the
polling loop itself continues, governed solely by the `monitoring` flag). -/
theorem C6_failing_subscriber_stops_cycle_tail (st : MonitorState)
    (table : List RawProc) :
    (monitor_cycle st table).snd.fst =
      (st.callbacks.takeWhile (fun c => !c.fails)).map
        (fun c => (c.sid, get_processes table)) ∧
    (monitor_cycle st table).snd.snd = st.monitoring := by
  refine ⟨?_, rfl⟩
  simp only [monitor_cycle]
  exact notify_callbacks_fst (get_processes table) st.callbacks

/-- C6 counterexample: with callbacks 1, 2, 3 where callback 2 raises,
only callback 1 receives the snapshot list — callback 3 is skipped, so it
is false that all other subscribers still receive the cycle's list. -/
theorem C6_counterexample :
    ((monitor_cycle stC6 tblC6).snd.fst.map Prod.fst) = [1] ∧
    ((monitor_cycle stC6 tblC6).snd.fst.map Prod.fst) ≠ [1, 3] := by decide

/-- C7: a `startup` schedule added enabled executes its action list ZERO
times, not once: `_create_job` runs `_run_schedule` before the schedule
is inserted into `self.schedules`, so the guard returns immediately; the
schedule is stored with no recorded run, no job and no `next_run`. -/
theorem C7_startup_schedule_never_fires :
    (add_schedule initScheduler "s1" "boot" "startup" none [] none
      [⟨"clean_memory"⟩] true 0 5).executed = [] ∧
    (alist_lookup (add_schedule initScheduler "s1" "boot" "startup" none []
      none [⟨"clean_memory"⟩] true 0 5).schedules "s1").map
        (fun i => i.last_run) = some none ∧
    (alist_lookup (add_schedule initScheduler "s1" "boot" "startup" none []
      none [⟨"clean_memory"⟩] true 0 5).schedules "s1").map
        (fun i => i.has_job) = some false ∧
    (alist_lookup (add_schedule initScheduler "s1" "boot" "startup" none []
      none [⟨"clean_memory"⟩] true 0 5).schedules "s1").map
        (fun i => i.next_run) = some none := by decide

/-- C8 (amended): `remove_optimization` on a live process with the resets
succeeding deletes the pid's record and returns `true`; but when the
process is already gone it returns `false` WITHOUT deleting the record —
the bare `except` fires before the `del`, so the record survives. -/
theorem C8_remove_gone_keeps_record (st : OptimizerState) (env : OSEnv)
    (pid : Nat) :
    ((env.find pid).isSome → env.reset_ok = true →
      remove_optimization st env pid =
        ({ st with optimized_processes := alist_del st.optimized_processes pid }, true)) ∧
    (env.find pid = none → remove_optimization st env pid = (st, false)) := by
  constructor
  · intro h1 h2
    cases he : env.find pid with
    | none => rw [he] at h1; simp at h1
    | some p => simp [remove_optimization, he, h2]
  · intro h
    simp [remove_optimization, h]

/-- C8 witness: the amended theorem applied to a live process (pid 5 on
`envC5`) and to a vanished process (pid 9 on `envGone`). -/
theorem C8_witness :
    remove_optimization stC8 envC5 5 =
      ({ stC8 with optimized_processes := alist_del stC8.optimized_processes 5 }, true) ∧
    remove_optimization stC8 envGone 9 = (stC8, false) :=
  ⟨(C8_remove_gone_keeps_record stC8 envC5 5).1 (by decide) (by decide),
   (C8_remove_gone_keeps_record stC8 envGone 9).2 (by decide)⟩

/-- C8 counterexample: removing the optimization of a vanished pid returns
`false` and leaves the pid's record in the table, refuting the claim that
the record is destroyed when the process is confirmed gone. -/
theorem C8_counterexample :
    (remove_optimization stC8 envGone 9).snd = false ∧
    alist_lookup (remove_optimization stC8 envGone
      9).fst.optimized_processes 9 = some recC5 := by decide

/-- C9 (amended): every poll returns at most 30 snapshots, sorted by CPU
descending, each readable and not of negligible CPU-and-memory share —
but they are drawn only from the first 50 table entries that pass the
filter, not from the whole table. -/
theorem C9_poll_bounded_sorted_filtered (table : List RawProc) :
    (get_processes table).length ≤ 30 ∧
    List.Sorted (fun a b : RawProc => b.cpu_percent ≤ a.cpu_percent)
      (get_processes table) ∧
    ∀ p ∈ get_processes table,
      p ∈ table ∧ p.accessible = true ∧
        ¬(p.cpu_percent = 0 ∧ p.memory_percent < mkRat 1 10) := by
  refine ⟨?_, ?_, ?_⟩
  · rw [get_processes]
    simp [List.length_take]
  · rw [get_processes]
    exact List.Pairwise.sublist (List.take_sublist _ _)
      (sorted_sortDescBy (fun p : RawProc => p.cpu_percent)
        (collect_processes table 0))
  · intro p hp
    rw [get_processes] at hp
    have h1 : p ∈ sortDescBy (fun p => p.cpu_percent)
        (collect_processes table 0) := (List.take_sublist _ _).subset hp
    have h2 : p ∈ collect_processes table 0 :=
      (perm_sortDescBy (fun p => p.cpu_percent) _).mem_iff.mp h1
    exact mem_collect_processes table 0 p h2

/-- C9 counterexample: on a 51-row table whose hottest process is row 50,
the poll never reaches that row (the iteration stops after collecting 50),
so the result is not the table's top processes by CPU: the code's head has
1% CPU (pid 0) while the spec's top selection starts with pid 50. -/
theorem C9_counterexample :
    ((get_processes tblC9).map RawProc.pid).head? = some 0 ∧
    ((spec_poll tblC9).map RawProc.pid).head? = some 50 ∧
    get_processes tblC9 ≠ spec_poll tblC9 := by decide

/-- C10: with no optimization records, `get_optimization_stats` performs
no division by zero: the guard returns 0 for the average, and all other
aggregates are 0 / empty. -/
theorem C10_stats_empty_state (st : OptimizerState)
    (h : st.optimized_processes = []) :
    get_optimization_stats st =
      { total_optimized := 0, average_boost := 0, total_boost := 0,
        top_processes := [] } := by
  simp [get_optimization_stats, h, sortDescBy]

/-- C10 witness: the theorem applied to a freshly constructed optimizer. -/
theorem C10_witness :
    get_optimization_stats (initOptimizer "Linux") =
      { total_optimized := 0, average_boost := 0, total_boost := 0,
        top_processes := [] } :=
  C10_stats_empty_state (initOptimizer "Linux") rfl

end SpeedDemon
